import Mathlib

/-!
Shallow embedding of the bitrix-lead-analyzer decision pipeline.

The Python sources embedded here:
  app/models/analysis_result.py      (actions, reasons, result records, derived rates)
  app/models/lead.py                 (leads, activities, unsuccessful-call predicate)
  app/services/gemini_service.py     (basic suitability classifier)
  enhanced/enhanced_gemini.py        (enhanced classifier with alternative status)
  app/services/lead_analyzer.py      (count rule, AI rule, dispatch, write-back)
  enhanced/enhanced_lead_analyzer.py (enhanced count rule and AI rule)
  enhanced_analyzer_with_db.py       (transcription cache keyed by a hash of the URL)

External effects are passed in as explicit inputs: the CRM activity list, the
list of call records, the transcription service (a total function, standing for
the per-file try/except in the Python), the raw AI completion text (an Option,
none standing for a missing response), and the boolean outcome of the CRM
update call.  Wall-clock fields (start/end time, processing_time) and float
confidence/duration fields are not modelled; no claim mentions them.
-/

namespace BitrixLeadAnalyzer

/-! ### Python string primitives

Character-level models of the str methods the sources use: strip, lower,
startswith, substring membership, split by a newline, and the regex
re.sub that deletes punctuation.  All operate on the char list of the
string so that every theorem below evaluates by kernel reduction. -/

/-- The six ASCII whitespace characters stripped by str.strip and matched
by the regex class for spaces. -/
def isPySpace (c : Char) : Bool :=
  c = ' ' || c = '\t' || c = '\n' || c = '\r' || c = '\x0b' || c = '\x0c'

/-- A word character in the regex sense: alphanumeric or underscore. -/
def isWordChar (c : Char) : Bool :=
  c.isAlphanum || c = '_'

/-- str.strip on a char list. -/
def stripL (l : List Char) : List Char :=
  ((l.dropWhile isPySpace).reverse.dropWhile isPySpace).reverse

/-- str.strip. -/
def pyStrip (s : String) : String :=
  ⟨stripL s.data⟩

/-- str.lower (ASCII model). -/
def pyLower (s : String) : String :=
  ⟨s.data.map Char.toLower⟩

/-- str.startswith on char lists. -/
def startsWithL (l p : List Char) : Bool :=
  decide (l.take p.length = p)

/-- str.startswith. -/
def pyStartsWith (s p : String) : Bool :=
  startsWithL s.data p.data

/-- Substring membership on char lists, as the Python operator `in`. -/
def containsL (p : List Char) : List Char → Bool
  | [] => startsWithL [] p
  | c :: rest => startsWithL (c :: rest) p || containsL p rest

/-- Substring membership: pyContains s p models the Python test p in s. -/
def pyContains (s p : String) : Bool :=
  containsL p.data s.data

/-- Helper for splitting at newline characters, as str.split with one
separator: trailing and leading empty pieces are kept. -/
def splitLinesAux : List Char → List Char → List (List Char)
  | [], acc => [acc.reverse]
  | c :: rest, acc =>
    if c = '\n' then acc.reverse :: splitLinesAux rest []
    else splitLinesAux rest (c :: acc)

/-- response_text.split with separator a newline. -/
def pyLinesNL (s : String) : List String :=
  (splitLinesAux s.data []).map fun l => ⟨l⟩

/-- line.split at the first colon, keeping the part after it
(the sources only apply this to lines that do contain a colon). -/
def afterColon (s : String) : String :=
  ⟨(s.data.dropWhile fun c => !(c = ':')).drop 1⟩

/-- line.lstrip of exactly one leading character, as the slice line[1:]. -/
def dropFirstChar (s : String) : String :=
  ⟨s.data.drop 1⟩

/-- The regex substitution that deletes every character that is neither a
word character nor whitespace. -/
def removePunct (s : String) : String :=
  ⟨s.data.filter fun c => isWordChar c || isPySpace c⟩

/-- sep.join on a list of strings. -/
def pyJoin (sep : String) : List String → String
  | [] => ""
  | [x] => x
  | x :: y :: xs => x ++ sep ++ pyJoin sep (y :: xs)

/-- Concatenation of a list of strings (repeated += in the sources). -/
def concatAll (l : List String) : String :=
  l.foldl (fun a b => a ++ b) ""

/-- Python truthiness of an optional string: None and the empty string are
falsy; `not self.error` in the sources is isFalsyOpt error. -/
def isFalsyOpt : Option String → Bool
  | none => true
  | some s => decide (s = "")

/-- Python string interpolation of an optional string: None prints as the
literal word None. -/
def pyStrOfOpt : Option String → String
  | none => "None"
  | some s => s

/-! ### Data model (app/models/analysis_result.py, app/models/lead.py) -/

/-- AnalysisAction enumeration. -/
inductive AnalysisAction where
  | keepStatus
  | changeStatus
  | skip
  | error
deriving DecidableEq, Repr

/-- AnalysisReason enumeration. -/
inductive AnalysisReason where
  | sufficientCalls
  | insufficientCalls
  | aiSuitable
  | aiNotSuitable
  | noAudioFiles
  | noTranscription
  | notTargetStatus
  | apiError
  | validationError
deriving DecidableEq, Repr

/-- TranscriptionResult dataclass (confidence and duration floats omitted;
no claim mentions them). -/
structure TranscriptionResult where
  audio_file : String
  transcription : String
  language : Option String := none
  error : Option String := none
deriving DecidableEq, Repr

/-- is_successful property: the transcription string is truthy and the error
field is falsy. -/
def TranscriptionResult.is_successful (t : TranscriptionResult) : Bool :=
  decide (t.transcription ≠ "") && isFalsyOpt t.error

/-- AIAnalysisResult dataclass.  The alternative_status field models the
attribute that EnhancedGeminiService assigns dynamically on the instance;
the dataclass itself declares no such field, and in particular declares no
has_alternative_status member at all. -/
structure AIAnalysisResult where
  is_suitable : Bool
  reasoning : Option String := none
  error : Option String := none
  alternative_status : Option Int := none
deriving DecidableEq, Repr

/-- is_successful property: the error field is falsy. -/
def AIAnalysisResult.is_successful (r : AIAnalysisResult) : Bool :=
  isFalsyOpt r.error

/-- LeadAnalysisResult dataclass (timing fields omitted). -/
structure LeadAnalysisResult where
  lead_id : String
  original_status : Option String := none
  original_junk_status : Option Int := none
  action : Option AnalysisAction := none
  reason : Option AnalysisReason := none
  new_status : Option String := none
  new_junk_status : Option Int := none
  unsuccessful_calls_count : Nat := 0
  transcription_results : List TranscriptionResult := []
  ai_analysis : Option AIAnalysisResult := none
  error_message : Option String := none
deriving DecidableEq, Repr

/-- set_error: records the message and overwrites action and reason with
the error action and the default API_ERROR reason (every call site in the
sources uses the default reason argument). -/
def LeadAnalysisResult.set_error (r : LeadAnalysisResult) (msg : String) :
    LeadAnalysisResult :=
  { r with error_message := some msg,
           action := some .error,
           reason := some .apiError }

/-- set_action: stores action, reason, and the optional new statuses
(the Python defaults both new fields to None when not passed). -/
def LeadAnalysisResult.set_action (r : LeadAnalysisResult)
    (a : AnalysisAction) (rs : AnalysisReason)
    (ns : Option String) (njs : Option Int) : LeadAnalysisResult :=
  { r with action := some a, reason := some rs,
           new_status := ns, new_junk_status := njs }

/-- add_transcription_result: appends one transcription outcome. -/
def LeadAnalysisResult.add_transcription_result (r : LeadAnalysisResult)
    (t : TranscriptionResult) : LeadAnalysisResult :=
  { r with transcription_results := r.transcription_results ++ [t] }

/-- is_successful property of a lead result. -/
def LeadAnalysisResult.is_successful (r : LeadAnalysisResult) : Bool :=
  decide (r.action ≠ some .error) && isFalsyOpt r.error_message

/-- transcription_success_rate property; the float division is modelled
over the rationals. -/
def LeadAnalysisResult.transcription_success_rate (r : LeadAnalysisResult) :
    ℚ :=
  if r.transcription_results = [] then 0
  else ((r.transcription_results.filter fun t => t.is_successful).length : ℚ) /
    (r.transcription_results.length : ℚ)

/-- total_transcription_text property: the double-newline join of the
successful transcriptions, in stored order. -/
def LeadAnalysisResult.total_transcription_text (r : LeadAnalysisResult) :
    String :=
  pyJoin "\n\n"
    ((r.transcription_results.filter fun t => t.is_successful).map
      fun t => t.transcription)

/-- BatchAnalysisResult dataclass (timing fields omitted). -/
structure BatchAnalysisResult where
  batch_id : String
  lead_results : List LeadAnalysisResult := []
deriving DecidableEq, Repr

/-- total_leads property. -/
def BatchAnalysisResult.total_leads (b : BatchAnalysisResult) : Nat :=
  b.lead_results.length

/-- successful_analyses property. -/
def BatchAnalysisResult.successful_analyses (b : BatchAnalysisResult) : Nat :=
  (b.lead_results.filter fun r => r.is_successful).length

/-- success_rate property; the float division is modelled over the
rationals. -/
def BatchAnalysisResult.success_rate (b : BatchAnalysisResult) : ℚ :=
  if b.total_leads = 0 then 0
  else (b.successful_analyses : ℚ) / (b.total_leads : ℚ)

/-- LeadActivity dataclass (date and audio_file fields omitted; the claims
only use the call-outcome predicate). -/
structure LeadActivity where
  id : String
  type_id : String
  direction : String
  result : Option String := none
deriving DecidableEq, Repr

/-- is_call property. -/
def LeadActivity.is_call (a : LeadActivity) : Bool :=
  decide (a.type_id = "2")

/-- is_unsuccessful_call property: a call whose result is one of the four
unsuccessful outcome strings (a missing result never matches). -/
def LeadActivity.is_unsuccessful_call (a : LeadActivity) : Bool :=
  a.is_call &&
    (match a.result with
     | some s => decide (s = "UNSUCCESSFUL" ∨ s = "NO_ANSWER" ∨ s = "BUSY" ∨
         s = "FAILED")
     | none => false)

/-- The five recognized junk-reason codes, as in Lead.has_target_junk_status
and the default config junk_statuses mapping. -/
def targetJunkStatuses : List Int := [158, 227, 229, 783, 807]

/-- The keys of the default config.lead_status.junk_statuses mapping, used
by the basic classifier to validate the code under evaluation. -/
def configJunkStatuses : List Int := [158, 227, 229, 783, 807]

/-- Lead dataclass (contact, timestamps and raw payload omitted). -/
structure Lead where
  id : String
  title : Option String := none
  status_id : Option String := none
  junk_status : Option Int := none
  activities : List LeadActivity := []

/-- has_target_junk_status property: the junk code is present and is one of
the five recognized codes. -/
def Lead.has_target_junk_status (l : Lead) : Bool :=
  match l.junk_status with
  | some k => decide (k ∈ targetJunkStatuses)
  | none => false

/-- unsuccessful_calls_count property. -/
def Lead.unsuccessful_calls_count (l : Lead) : Nat :=
  (l.activities.filter fun a => a.is_unsuccessful_call).length

/-- config.lead_status.active_status_value default. -/
def activeStatusValue : String := "NEW"

/-- config.lead_status.junk_status_value default. -/
def junkStatusValue : String := "JUNK"

/-! ### Basic suitability classifier (app/services/gemini_service.py)

The Gemini API call is abstracted as an Option String input: none stands
for a missing or empty response (after the retry loop), some text for the
completion text.  Each analyze function also reports whether the API was
reached, so that fail-fast behaviour is observable. -/

/-- The cleaned response text of _parse_suitability_response: stripped,
lowercased, punctuation deleted. -/
def cleanedResponse (response_text : String) : String :=
  removePunct (pyLower (pyStrip response_text))

/-- The literal affirmative words the basic parser accepts verbatim. -/
def yesWords : List String := ["yes", "suitable", "appropriate", "correct"]

/-- The literal negative words the basic parser accepts verbatim. -/
def noWords : List String := ["no", "unsuitable", "inappropriate", "incorrect"]

/-- GeminiService._parse_suitability_response. -/
def GeminiService.parse_suitability_response (response_text : String) : Bool :=
  let cleaned := cleanedResponse response_text
  if pyContains cleaned "true" && !pyContains cleaned "false" then true
  else if pyContains cleaned "false" && !pyContains cleaned "true" then false
  else if cleaned ∈ yesWords then true
  else if cleaned ∈ noWords then false
  else false

/-- GeminiService._extract_reasoning. -/
def GeminiService.extract_reasoning (full_response : String) : Option String :=
  if (pyStrip full_response).length ≤ 10 then none
  else
    let reasoning_lines :=
      ((pyLinesNL full_response).map pyStrip).filter fun l =>
        decide (l ≠ "") && decide (pyLower l ∉ (["true", "false"] : List String))
    if reasoning_lines = [] then none
    else some (pyJoin " " reasoning_lines)

/-- GeminiService.analyze_lead_status: fail-fast checks, then the API call
(second component: whether the API was reached), then parsing.  Note the
call site lowercases and strips the response before parsing. -/
def GeminiService.analyze_lead_status (transcription : String) (code : Int)
    (api : Option String) : AIAnalysisResult × Bool :=
  if pyStrip transcription = "" then
    ({ is_suitable := false, error := some "Empty transcription provided" },
      false)
  else if code ∉ configJunkStatuses then
    ({ is_suitable := false,
       error := some ("Unknown junk status: " ++ toString code) }, false)
  else
    match api with
    | none =>
      ({ is_suitable := false, error := some "No response from Gemini AI" },
        true)
    | some text =>
      let result_text := pyLower (pyStrip text)
      ({ is_suitable := GeminiService.parse_suitability_response result_text,
         reasoning := GeminiService.extract_reasoning text }, true)

/-! ### Enhanced classifier (enhanced/enhanced_gemini.py) -/

/-- The four codes the enhanced classifier validates against and the only
codes its alternative-status regex can extract. -/
def validAIStatuses : List Int := [227, 229, 783, 807]

/-- The alternation patterns of the regex, in alternation order, paired
with the integer each one parses to. -/
def altPatterns : List (String × Int) :=
  [("227", 227), ("229", 229), ("783", 783), ("807", 807)]

/-- Whether a pattern occurs at index i with word boundaries on both sides
(start of string, or a non-word character, counts as a boundary). -/
def boundedMatchAt (l : List Char) (i : Nat) (p : List Char) : Bool :=
  decide ((l.drop i).take p.length = p)
    && (decide (i = 0) || !isWordChar (l.getD (i - 1) ' '))
    && !isWordChar (l.getD (i + p.length) ' ')

/-- Left-to-right scan for the first bounded occurrence of one of the four
alternation patterns; fuel is the remaining number of start positions. -/
def findAltCodeAux (l : List Char) : Nat → Nat → Option Int
  | 0, _ => none
  | fuel + 1, i =>
    match altPatterns.find? fun p => boundedMatchAt l i p.1.data with
    | some p => some p.2
    | none => findAltCodeAux l fuel (i + 1)

/-- The findall of the alternative-status regex, keeping the first match,
as int(numbers[0]) in the source. -/
def findAltCode (s : String) : Option Int :=
  findAltCodeAux s.data (s.data.length + 1) 0

/-- The section the line loop of _parse_enhanced_response is currently in. -/
inductive RespSection where
  | decision
  | alternative
  | reasons
  | explanation
deriving DecidableEq, Repr

/-- The loop state of _parse_enhanced_response. -/
structure ParseState where
  is_suitable : Option Bool := none
  alternative_status : Option Int := none
  decision_reasons : List String := []
  explanation : String := ""
  current_section : Option RespSection := none
deriving DecidableEq, Repr

/-- The decision-header branch of the line loop: the part after the colon
decides true or false only when exactly one of the two tokens occurs. -/
def EnhancedGeminiService.step_decision (st : ParseState) (part : String) :
    ParseState :=
  if pyContains part "true" && !pyContains part "false" then
    { st with is_suitable := some true }
  else if pyContains part "false" && !pyContains part "true" then
    { st with is_suitable := some false }
  else st

/-- The alternative-status-header branch of the line loop: the regex scan
of the part after the colon overwrites the alternative only on a match. -/
def EnhancedGeminiService.step_alternative (st : ParseState) (part : String) :
    ParseState :=
  match findAltCode part with
  | some k => { st with alternative_status := some k }
  | none => st

/-- The bullet branch of the line loop: a line starting with one of the
three bullet markers contributes its nonempty remainder as a reason. -/
def EnhancedGeminiService.step_bullet (st : ParseState) (ls : String) :
    ParseState :=
  if pyStartsWith ls "-" || pyStartsWith ls "•" || pyStartsWith ls "*" then
    let r := pyStrip (dropFirstChar ls)
    if r ≠ "" then
      { st with decision_reasons := st.decision_reasons ++ [r] }
    else st
  else st

/-- The explanation branch of the line loop: every line not starting with
one of three header prefixes is appended (the guard is vacuous since the
earlier elif arms already captured those prefixes). -/
def EnhancedGeminiService.step_explanation (st : ParseState) (ls ll : String) :
    ParseState :=
  if !(pyStartsWith ll "qaror:" || pyStartsWith ll "sabablari:" ||
      pyStartsWith ll "alternative_status:") then
    { st with explanation := st.explanation ++ ls ++ " " }
  else st

/-- One iteration of the line loop of _parse_enhanced_response. -/
def EnhancedGeminiService.parse_step (st : ParseState) (line : String) :
    ParseState :=
  let ls := pyStrip line
  let ll := pyLower ls
  if ls = "" then st
  else if pyStartsWith ll "qaror:" || pyStartsWith ll "decision:" then
    { EnhancedGeminiService.step_decision st (pyLower (pyStrip (afterColon ls)))
        with current_section := some .decision }
  else if pyStartsWith ll "alternative_status:" ||
      pyStartsWith ll "alternative:" then
    { EnhancedGeminiService.step_alternative st (pyStrip (afterColon ls))
        with current_section := some .alternative }
  else if pyStartsWith ll "sabablari:" || pyStartsWith ll "reasons:" then
    { st with current_section := some .reasons }
  else if pyStartsWith ll "tushuntirish:" || pyStartsWith ll "explanation:" then
    { st with current_section := some .explanation }
  else if st.current_section = some .reasons then
    EnhancedGeminiService.step_bullet st ls
  else if st.current_section = some .explanation then
    EnhancedGeminiService.step_explanation st ls ll
  else if ll = "true" then { st with is_suitable := some true }
  else if ll = "false" then { st with is_suitable := some false }
  else st

/-- The full line scan of _parse_enhanced_response over the stripped
response split at newlines. -/
def EnhancedGeminiService.parse_scan (response_text : String) : ParseState :=
  (pyLinesNL (pyStrip response_text)).foldl EnhancedGeminiService.parse_step {}

/-- The status_names mapping used while building the detailed reasoning. -/
def statusNames : List (Int × String) :=
  [(227, "Notog\x27ri raqam"), (229, "Ariza qoldirmagan"),
   (783, "Notog\x27ri mijoz"), (807, "Yoshi to\x27g\x27ri kelmadi")]

/-- status_names.get with its fallback text. -/
def statusNameOf (k : Int) : String :=
  match statusNames.find? fun p => decide (p.1 = k) with
  | some p => p.2
  | none => "Status " ++ toString k

/-- The bullet lines appended for each collected reason. -/
def bulletLines (reasons : List String) : String :=
  concatAll (reasons.map fun r => "• " ++ r ++ "\n")

/-- The detailed_reasoning construction of _parse_enhanced_response. -/
def EnhancedGeminiService.build_reasoning (is_suitable : Bool)
    (alternative : Option Int) (reasons : List String)
    (explanation : String) : String :=
  if !is_suitable ∧ reasons ≠ [] then
    "Holat noto\x27g\x27ri deb topilgan sabablari:\n" ++ bulletLines reasons ++
      (if pyStrip explanation ≠ "" then
        "\nQo\x27shimcha tushuntirish: " ++ pyStrip explanation
      else "")
  else if is_suitable ∧ alternative.isSome ∧ reasons ≠ [] then
    let k := alternative.getD 0
    "Hozirgi holat o\x27rniga \x27" ++ statusNameOf k ++ "\x27 (" ++
      toString k ++ ") holati ko\x27proq mos keladi.\n" ++ "Sabablari:\n" ++
      bulletLines reasons ++
      (if pyStrip explanation ≠ "" then
        "\nTushuntirish: " ++ pyStrip explanation
      else "")
  else if is_suitable ∧ reasons ≠ [] then
    "Holat to\x27g\x27ri deb tasdiqlandi.\n" ++ "Tasdiqlovchi dalillar:\n" ++
      bulletLines reasons ++
      (if pyStrip explanation ≠ "" then
        "\nTushuntirish: " ++ pyStrip explanation
      else "")
  else if !is_suitable ∧ reasons = [] then
    "Holat noto\x27g\x27ri deb topildi, lekin batafsil sabab ko\x27rsatilmagan."
  else ""

/-- EnhancedGeminiService._parse_enhanced_response: the line scan, the
unstructured-text fallback (both or neither bare token defaults to false),
and the reasoning text; returns (decision, reasoning, alternative). -/
def EnhancedGeminiService.parse_enhanced_response (response_text : String) :
    Bool × Option String × Option Int :=
  let st := EnhancedGeminiService.parse_scan response_text
  let is_suitable :=
    match st.is_suitable with
    | some b => b
    | none =>
      let clean := pyLower (pyStrip response_text)
      if pyContains clean "true" && !pyContains clean "false" then true
      else if pyContains clean "false" && !pyContains clean "true" then false
      else false
  let detailed := EnhancedGeminiService.build_reasoning is_suitable
    st.alternative_status st.decision_reasons st.explanation
  (is_suitable, if detailed = "" then none else some detailed,
    st.alternative_status)

/-- EnhancedGeminiService.analyze_lead_status: fail-fast validation against
the four-code table, the API call (second component: whether the API was
reached), parsing, and the dynamic assignment of alternative_status onto
the result instance. -/
def EnhancedGeminiService.analyze_lead_status (transcription : String)
    (code : Int) (api : Option String) : AIAnalysisResult × Bool :=
  if pyStrip transcription = "" then
    ({ is_suitable := false, error := some "Empty transcription provided" },
      false)
  else if code ∉ validAIStatuses then
    ({ is_suitable := false,
       error := some ("Unknown junk status: " ++ toString code) }, false)
  else
    match api with
    | none =>
      ({ is_suitable := false, error := some "No response from Gemini AI" },
        true)
    | some text =>
      let r := EnhancedGeminiService.parse_enhanced_response (pyStrip text)
      ({ is_suitable := r.1, reasoning := r.2.1,
         alternative_status := r.2.2 }, true)

/-! ### Decision engine (app/services/lead_analyzer.py)

The CRM, transcription and AI dependencies of one analysis are bundled in
an environment record.  Each analysis returns the result record, the text
the classifier was invoked with (none when classification never happened),
and whether update_lead_complete was invoked. -/

/-- The external dependencies of one LeadAnalyzerService analysis:
get_lead_activities, get_lead_audio_files, the transcription service
(total: the per-file try/except turns its exceptions into failed
TranscriptionResult values already), the raw Gemini completion, and the
boolean returned by update_lead_complete. -/
structure AppEnv where
  activities : List LeadActivity
  audio_files : List String
  transcribe : String → TranscriptionResult
  gemini_response : Option String
  update_ok : Bool

/-- The decision half of _analyze_unsuccessful_calls, given the computed
count: at least five keeps the junk status, fewer reclassifies to the
active status with the junk reason cleared and, outside dry-run, writes
the change back (a rejected write is recorded via set_error).  Second
component: whether update_lead_complete was invoked. -/
def LeadAnalyzerService.count_decision (res : LeadAnalysisResult)
    (unsuccessful_calls : Nat) (dry_run update_ok : Bool) :
    LeadAnalysisResult × Bool :=
  let res := { res with unsuccessful_calls_count := unsuccessful_calls }
  if 5 ≤ unsuccessful_calls then
    (res.set_action .keepStatus .sufficientCalls none none, false)
  else
    let res := res.set_action .changeStatus .insufficientCalls
      (some activeStatusValue) none
    if !dry_run then
      (if update_ok then res
       else res.set_error "Failed to update lead status", true)
    else (res, false)

/-- LeadAnalyzerService._analyze_unsuccessful_calls: store the fetched
activities on the lead, count its unsuccessful calls, and decide. -/
def LeadAnalyzerService.analyze_unsuccessful_calls (env : AppEnv)
    (lead : Lead) (res : LeadAnalysisResult) (dry_run : Bool) :
    LeadAnalysisResult × Bool :=
  LeadAnalyzerService.count_decision res
    (Lead.unsuccessful_calls_count { lead with activities := env.activities })
    dry_run env.update_ok

/-- The verdict-handling tail of _analyze_with_ai: record the verdict,
convert an unsuccessful verdict into an error, keep the status on a
suitable verdict, and otherwise reclassify to the active status with the
junk reason cleared, writing back outside dry-run. -/
def LeadAnalyzerService.ai_decision (res : LeadAnalysisResult)
    (ai : AIAnalysisResult) (combined : String)
    (dry_run update_ok : Bool) : LeadAnalysisResult × Option String × Bool :=
  let res := { res with ai_analysis := some ai }
  if !ai.is_successful then
    (res.set_error ("AI analysis failed: " ++ pyStrOfOpt ai.error),
      some combined, false)
  else if ai.is_suitable then
    (res.set_action .keepStatus .aiSuitable none none, some combined, false)
  else
    let res := res.set_action .changeStatus .aiNotSuitable
      (some activeStatusValue) none
    if !dry_run then
      (if update_ok then res
       else res.set_error "Failed to update lead status", some combined,
        true)
    else (res, some combined, false)

/-- LeadAnalyzerService._analyze_with_ai: skip without audio files,
transcribe every file, skip when no transcription succeeded, classify the
combined text, and act on the verdict.  Components: the result, the text
handed to the classifier (none when no classification happened), and
whether update_lead_complete was invoked. -/
def LeadAnalyzerService.analyze_with_ai (env : AppEnv) (code : Int)
    (res : LeadAnalysisResult) (dry_run : Bool) :
    LeadAnalysisResult × Option String × Bool :=
  if env.audio_files = [] then
    (res.set_action .skip .noAudioFiles none none, none, false)
  else
    let transcription_results := env.audio_files.map env.transcribe
    let res := { res with transcription_results :=
      res.transcription_results ++ transcription_results }
    if transcription_results.filter (fun t => t.is_successful) = [] then
      (res.set_action .skip .noTranscription none none, none, false)
    else
      let combined := res.total_transcription_text
      LeadAnalyzerService.ai_decision res
        (GeminiService.analyze_lead_status combined code
          env.gemini_response).1 combined dry_run env.update_ok

/-- LeadAnalyzerService._analyze_single_lead: skip non-target junk codes,
route code 158 to the call-count rule and every other recognized code to
the AI rule (the getD is unreachable: in that branch the junk code is
present, and the Python passes it unchanged). -/
def LeadAnalyzerService.analyze_single_lead (env : AppEnv) (lead : Lead)
    (dry_run : Bool) : LeadAnalysisResult × Option String × Bool :=
  let res : LeadAnalysisResult :=
    { lead_id := lead.id, original_status := lead.status_id,
      original_junk_status := lead.junk_status }
  if !lead.has_target_junk_status then
    (res.set_action .skip .notTargetStatus none none, none, false)
  else if lead.junk_status = some 158 then
    let p := LeadAnalyzerService.analyze_unsuccessful_calls env lead res
      dry_run
    (p.1, none, p.2)
  else
    LeadAnalyzerService.analyze_with_ai env (lead.junk_status.getD 0) res
      dry_run

/-! ### Enhanced decision engine (enhanced/enhanced_lead_analyzer.py) -/

/-- One record of get_voximplant_call_data: whether the CALL_RECORD_URL key
is present, and the CALL_FAILED_CODE value. -/
structure VoxCall where
  call_record_url : Option String
  call_failed_code : String

/-- The external dependencies of one EnhancedLeadAnalyzerService
analysis. -/
structure EnhancedEnv where
  activities : List LeadActivity
  vox_calls : List VoxCall
  transcribe : String → TranscriptionResult
  gemini_response : Option String
  update_ok : Bool

/-- The audio-file extraction loop: keep CALL_RECORD_URL values of records
that carry the key and whose CALL_FAILED_CODE is the string 200. -/
def voxAudioFiles (calls : List VoxCall) : List String :=
  calls.filterMap fun c =>
    match c.call_record_url with
    | some u => if c.call_failed_code = "200" then some u else none
    | none => none

/-- The decision half of the enhanced _analyze_unsuccessful_calls, given
the computed count; the source text of this decision is identical to the
basic service. -/
def EnhancedLeadAnalyzerService.count_decision (res : LeadAnalysisResult)
    (unsuccessful_calls : Nat) (dry_run update_ok : Bool) :
    LeadAnalysisResult × Bool :=
  let res := { res with unsuccessful_calls_count := unsuccessful_calls }
  if 5 ≤ unsuccessful_calls then
    (res.set_action .keepStatus .sufficientCalls none none, false)
  else
    let res := res.set_action .changeStatus .insufficientCalls
      (some activeStatusValue) none
    if !dry_run then
      (if update_ok then res
       else res.set_error "Failed to update lead status", true)
    else (res, false)

/-- EnhancedLeadAnalyzerService._analyze_unsuccessful_calls: identical
decision to the basic service, with the count taken by an explicit loop
over the fetched activities. -/
def EnhancedLeadAnalyzerService.analyze_unsuccessful_calls
    (env : EnhancedEnv) (res : LeadAnalysisResult) (dry_run : Bool) :
    LeadAnalysisResult × Bool :=
  EnhancedLeadAnalyzerService.count_decision res
    (env.activities.filter fun a => a.is_unsuccessful_call).length
    dry_run env.update_ok

/-- The verdict-handling tail of _analyze_with_ai_transcription.  When
the verdict says the current reason is suitable, the source immediately
reads ai_result.has_alternative_status; AIAnalysisResult declares no such
attribute (enhanced_gemini assigns only alternative_status dynamically),
so that read raises AttributeError, which the surrounding handler converts
into set_error — this is the faithful behaviour of the branch, not the
intent its dead code spells out below it.  When the verdict says the
reason is not suitable, the lead is reclassified to the active status with
the junk reason cleared, ignoring any alternative status on the verdict. -/
def EnhancedLeadAnalyzerService.ai_decision (res : LeadAnalysisResult)
    (ai : AIAnalysisResult) (combined : String)
    (dry_run update_ok : Bool) : LeadAnalysisResult × Option String × Bool :=
  let res := { res with ai_analysis := some ai }
  if !ai.is_successful then
    (res.set_error ("AI analysis failed: " ++ pyStrOfOpt ai.error),
      some combined, false)
  else if ai.is_suitable then
    (res.set_error
      ("Error in AI analysis: \x27AIAnalysisResult\x27 object has " ++
        "no attribute \x27has_alternative_status\x27"),
      some combined, false)
  else
    let res := res.set_action .changeStatus .aiNotSuitable
      (some activeStatusValue) none
    if !dry_run then
      (if update_ok then res
       else res.set_error "Failed to update lead status", some combined,
        true)
    else (res, some combined, false)

/-- EnhancedLeadAnalyzerService._analyze_with_ai_transcription: extract
the connected recordings, skip without audio files, transcribe each, skip
when no transcription succeeded, classify the combined text with the
enhanced classifier, and act on the verdict. -/
def EnhancedLeadAnalyzerService.analyze_with_ai_transcription
    (env : EnhancedEnv) (code : Int) (res : LeadAnalysisResult)
    (dry_run : Bool) : LeadAnalysisResult × Option String × Bool :=
  let audio_files := voxAudioFiles env.vox_calls
  if audio_files = [] then
    (res.set_action .skip .noAudioFiles none none, none, false)
  else
    let transcription_results := audio_files.map env.transcribe
    let res := { res with transcription_results :=
      res.transcription_results ++ transcription_results }
    let all_transcription_text :=
      (transcription_results.filter fun t => t.is_successful).map
        fun t => t.transcription
    if transcription_results.filter (fun t => t.is_successful) = [] then
      (res.set_action .skip .noTranscription none none, none, false)
    else
      let combined := pyJoin "\n\n" all_transcription_text
      EnhancedLeadAnalyzerService.ai_decision res
        (EnhancedGeminiService.analyze_lead_status combined code
          env.gemini_response).1 combined dry_run env.update_ok

/-! ### Transcription cache (enhanced_analyzer_with_db.py, database_models.py)

The database session is modelled as the list of Transcription rows in
insertion order; hashlib.sha256 hexdigest is an explicit function input
(an external library call); the audio download plus the POST to the
transcription service is one function from the URL to either an error
string (any exception in the try block) or the parsed JSON transcription
parts. -/

/-- One speaker-attributed segment of the transcription-service JSON. -/
structure SpeakerPart where
  speaker : String
  text : String

/-- A row of the transcriptions table (float columns and timestamps
omitted): audio_hash is the unique cache key. -/
structure DbTranscription where
  lead_id : String
  audio_url : String
  audio_hash : String
  transcription_text : String
  language : String
  is_successful : Bool
  error_message : Option String
deriving DecidableEq, Repr

/-- The dict analyze_audio_with_cache returns (float entries omitted; the
error-path dict carries no language key, and every consumer reads it with
get and the default uz, which the language field records directly). -/
structure CacheData where
  transcription : String
  language : String
  is_successful : Bool
  error : Option String
  from_cache : Bool
deriving DecidableEq, Repr

/-- CachedTranscriptionService._get_audio_hash: the hex digest of the
SHA-256 of the URL, with hashlib passed in as a function. -/
def CachedTranscriptionService.get_audio_hash (sha256hex : String → String)
    (audio_url : String) : String :=
  sha256hex audio_url

/-- CachedTranscriptionService._get_cached_transcription: the first row
whose audio_hash equals the hash of the URL. -/
def CachedTranscriptionService.get_cached_transcription
    (sha256hex : String → String) (db : List DbTranscription)
    (audio_url : String) : Option DbTranscription :=
  db.find? fun t =>
    decide (t.audio_hash = CachedTranscriptionService.get_audio_hash sha256hex
      audio_url)

/-- CachedTranscriptionService._save_transcription_to_cache: inserts one
row built from the data dict, keyed by the hash of the URL. -/
def CachedTranscriptionService.save_transcription_to_cache
    (sha256hex : String → String) (db : List DbTranscription)
    (lead_id audio_url : String) (d : CacheData) : List DbTranscription :=
  db ++ [{ lead_id := lead_id, audio_url := audio_url,
           audio_hash := CachedTranscriptionService.get_audio_hash sha256hex
             audio_url,
           transcription_text := d.transcription, language := d.language,
           is_successful := d.is_successful, error_message := d.error }]

/-- CachedTranscriptionService.analyze_audio_with_cache: cache lookup
first (a hit returns the stored row as a dict, touching neither the
network nor the database); on a miss, one network round trip, whose
success joins the speaker parts and stores success = nonempty text, and
whose failure stores a failed row with the error recorded.  Components:
the returned dict, the database after the call, and whether the network
was touched. -/
def CachedTranscriptionService.analyze_audio_with_cache
    (sha256hex : String → String)
    (net : String → Except String (List SpeakerPart))
    (db : List DbTranscription) (lead_id audio_url language : String) :
    CacheData × List DbTranscription × Bool :=
  match CachedTranscriptionService.get_cached_transcription sha256hex db
    audio_url with
  | some cached =>
    ({ transcription := cached.transcription_text,
       language := cached.language, is_successful := cached.is_successful,
       error := cached.error_message, from_cache := true }, db, false)
  | none =>
    match net audio_url with
    | .ok parts =>
      let full_transcription :=
        pyJoin "\n" (parts.map fun p => p.speaker ++ ": " ++ p.text)
      let cache_data : CacheData :=
        { transcription := full_transcription, language := language,
          is_successful := decide (full_transcription ≠ ""), error := none,
          from_cache := false }
      (cache_data,
        CachedTranscriptionService.save_transcription_to_cache sha256hex db
          lead_id audio_url cache_data, true)
    | .error e =>
      let error_data : CacheData :=
        { transcription := "", language := "uz", is_successful := false,
          error := some e, from_cache := false }
      (error_data,
        CachedTranscriptionService.save_transcription_to_cache sha256hex db
          lead_id audio_url error_data, true)

/-! ### Concrete fixtures

Closed inputs used by the boundary witnesses and counterexamples below. -/

/-- A call activity whose outcome is NO_ANSWER. -/
def unansweredCall : LeadActivity :=
  { id := "1", type_id := "2", direction := "OUT", result := some "NO_ANSWER" }

/-- A junk lead carrying the count-based reason code. -/
def lead158 : Lead :=
  { id := "123", status_id := some "JUNK", junk_status := some 158 }

/-- A junk lead carrying an AI-rule reason code. -/
def lead229 : Lead :=
  { id := "9", status_id := some "JUNK", junk_status := some 229 }

/-- A transcription service whose every outcome is an empty transcript. -/
def failingTranscribe : String → TranscriptionResult :=
  fun f => { audio_file := f, transcription := "" }

/-- A transcription service whose every outcome succeeds. -/
def okTranscribe : String → TranscriptionResult :=
  fun f => { audio_file := f, transcription := "salom" }

/-- Three unsuccessful calls, no audio, and a CRM that rejects updates. -/
def envThreeCallsNoWrite : AppEnv :=
  { activities := [unansweredCall, unansweredCall, unansweredCall],
    audio_files := [], transcribe := failingTranscribe,
    gemini_response := none, update_ok := false }

/-- Five unsuccessful calls with a CRM that accepts updates. -/
def envFiveCalls : AppEnv :=
  { envThreeCallsNoWrite with
    activities := List.replicate 5 unansweredCall, update_ok := true }

/-- Four unsuccessful calls with a CRM that accepts updates. -/
def envFourCalls : AppEnv :=
  { envFiveCalls with activities := List.replicate 4 unansweredCall }

/-- Enhanced-service environment with five unsuccessful calls. -/
def eenvFiveCalls : EnhancedEnv :=
  { activities := List.replicate 5 unansweredCall, vox_calls := [],
    transcribe := failingTranscribe, gemini_response := none,
    update_ok := true }

/-- Enhanced-service environment with four unsuccessful calls. -/
def eenvFourCalls : EnhancedEnv :=
  { eenvFiveCalls with activities := List.replicate 4 unansweredCall }

/-- A result record freshly created for an AI-rule lead. -/
def resInit : LeadAnalysisResult :=
  { lead_id := "9", original_status := some "JUNK",
    original_junk_status := some 229 }

/-- One connected recording, a good transcript, and a verdict that keeps
the junk label but names the alternative code 227. -/
def eenvAltTrue : EnhancedEnv :=
  { activities := [],
    vox_calls := [{ call_record_url := some "http://rec/1",
                    call_failed_code := "200" }],
    transcribe := okTranscribe,
    gemini_response := some "QAROR: true\nALTERNATIVE_STATUS: 227",
    update_ok := true }

/-- Same environment with a verdict that rejects the junk label while
still naming an alternative code. -/
def eenvAltFalse : EnhancedEnv :=
  { eenvAltTrue with
    gemini_response := some "QAROR: false\nALTERNATIVE_STATUS: 227" }

/-- Two recordings of which only the first transcribes. -/
def envAudio : AppEnv :=
  { activities := [],
    audio_files := ["http://rec/1", "http://rec/2"],
    transcribe := fun f =>
      if f = "http://rec/1" then { audio_file := f, transcription := "salom" }
      else { audio_file := f, transcription := "", error := some "boom" },
    gemini_response := some "true", update_ok := true }

/-- The same lead with no recordings at all. -/
def envNoAudio : AppEnv :=
  { envAudio with audio_files := [] }

/-- The same recordings with every transcription failing. -/
def envAllFail : AppEnv :=
  { envAudio with transcribe := failingTranscribe }

/-- A stand-in for the hashlib hex digest in the cache witness. -/
def sampleSha : String → String :=
  fun s => String.append "sha256:" s

/-- A transcription network that always succeeds. -/
def sampleNetOk : String → Except String (List SpeakerPart) :=
  fun _ => .ok [{ speaker := "operator", text := "salom" }]

/-! ### Helper lemmas -/

/-- find? distributes over append when the first list has no match. -/
theorem find?_append_of_none {α : Type} (p : α → Bool) (l₂ : List α) :
    ∀ l₁ : List α, l₁.find? p = none →
      (l₁ ++ l₂).find? p = l₂.find? p := by
  intro l₁
  induction l₁ with
  | nil => intro _; simp
  | cons a t ih =>
    intro h
    by_cases hpa : p a = true
    · rw [List.find?_cons_of_pos _ hpa] at h
      simp at h
    · rw [List.find?_cons_of_neg _ hpa] at h
      rw [List.cons_append, List.find?_cons_of_neg _ hpa]
      exact ih h

/-- Whatever the alternative-status regex extracts is one of its four
alternation patterns. -/
theorem findAltCodeAux_mem (fuel : Nat) :
    ∀ (l : List Char) (i : Nat) (k : Int),
      findAltCodeAux l fuel i = some k → k ∈ validAIStatuses := by
  induction fuel with
  | zero => intro l i k h; simp [findAltCodeAux] at h
  | succ n ih =>
    intro l i k h
    unfold findAltCodeAux at h
    split at h
    next p hf =>
      have hp : p ∈ altPatterns := List.mem_of_find?_eq_some hf
      have hk : p.2 = k := Option.some.inj h
      subst hk
      simp only [altPatterns, List.mem_cons, List.not_mem_nil, or_false]
        at hp
      rcases hp with rfl | rfl | rfl | rfl <;> decide
    next => exact ih l (i + 1) k h

/-- findAltCode only ever yields one of the four recognized codes. -/
theorem findAltCode_mem (s : String) (k : Int) (h : findAltCode s = some k) :
    k ∈ validAIStatuses :=
  findAltCodeAux_mem _ _ _ _ h

/-- The decision branch never touches the alternative status. -/
theorem step_decision_alt (st : ParseState) (part : String) :
    (EnhancedGeminiService.step_decision st part).alternative_status =
      st.alternative_status := by
  unfold EnhancedGeminiService.step_decision
  repeat' split
  all_goals rfl

/-- The bullet branch never touches the alternative status. -/
theorem step_bullet_alt (st : ParseState) (ls : String) :
    (EnhancedGeminiService.step_bullet st ls).alternative_status =
      st.alternative_status := by
  unfold EnhancedGeminiService.step_bullet
  dsimp only
  repeat' split
  all_goals rfl

/-- The explanation branch never touches the alternative status. -/
theorem step_explanation_alt (st : ParseState) (ls ll : String) :
    (EnhancedGeminiService.step_explanation st ls ll).alternative_status =
      st.alternative_status := by
  unfold EnhancedGeminiService.step_explanation
  repeat' split
  all_goals rfl

/-- The alternative branch keeps or overwrites the alternative status with
an output of findAltCode. -/
theorem step_alternative_alt (st : ParseState) (part : String) :
    (EnhancedGeminiService.step_alternative st part).alternative_status =
      st.alternative_status ∨
    ∃ k, (EnhancedGeminiService.step_alternative st part).alternative_status =
      some k ∧ findAltCode part = some k := by
  unfold EnhancedGeminiService.step_alternative
  split
  next k hk => exact Or.inr ⟨k, rfl, hk⟩
  next => exact Or.inl rfl

set_option maxHeartbeats 1600000 in
/-- One parse step either leaves the alternative status unchanged or sets
it to an output of findAltCode. -/
theorem parse_step_alt (st : ParseState) (line : String) :
    (EnhancedGeminiService.parse_step st line).alternative_status =
      st.alternative_status ∨
    ∃ k, (EnhancedGeminiService.parse_step st line).alternative_status =
      some k ∧
      findAltCode (pyStrip (afterColon (pyStrip line))) = some k := by
  unfold EnhancedGeminiService.parse_step
  dsimp only
  repeat' split
  all_goals try exact Or.inl rfl
  · left
    exact step_decision_alt st _
  · rcases step_alternative_alt st (pyStrip (afterColon (pyStrip line))) with
      h | ⟨k, h1, h2⟩
    · exact Or.inl h
    · exact Or.inr ⟨k, h1, h2⟩
  · left
    exact step_bullet_alt st _
  · left
    exact step_explanation_alt st _ _

/-- One parse step preserves the invariant that any recorded alternative
status is one of the four recognized codes. -/
theorem parse_step_alt_mem (st : ParseState) (line : String)
    (h : ∀ k, st.alternative_status = some k → k ∈ validAIStatuses) :
    ∀ k, (EnhancedGeminiService.parse_step st line).alternative_status =
      some k → k ∈ validAIStatuses := by
  intro k hk
  rcases parse_step_alt st line with heq | ⟨k', hs, hfind⟩
  · rw [heq] at hk
    exact h k hk
  · rw [hs] at hk
    have : k' = k := Option.some.inj hk
    subst this
    exact findAltCode_mem _ _ hfind

/-- The line scan preserves the alternative-status invariant. -/
theorem parse_scan_alt_mem (s : String) :
    ∀ k, (EnhancedGeminiService.parse_scan s).alternative_status = some k →
      k ∈ validAIStatuses := by
  unfold EnhancedGeminiService.parse_scan
  generalize pyLinesNL (pyStrip s) = lines
  generalize hst : ({} : ParseState) = st
  have hinv : ∀ k, st.alternative_status = some k → k ∈ validAIStatuses := by
    intro k hk
    rw [← hst] at hk
    simp at hk
  clear hst
  induction lines generalizing st with
  | nil => exact hinv
  | cons a t ih =>
    intro k hk
    exact ih _ (parse_step_alt_mem st a hinv) k hk

/-! ### Claim C10 -/

/-- Claim C10: the derived rate accessors are total on arbitrary result
lists: an empty lead_results list gives success_rate zero, and an empty
transcription_results list gives transcription_success_rate zero; the
guarded branches never divide by a zero denominator. -/
theorem rates_total_on_empty :
    (∀ b : BatchAnalysisResult, b.lead_results = [] → b.success_rate = 0) ∧
    (∀ r : LeadAnalysisResult, r.transcription_results = [] →
      r.transcription_success_rate = 0) := by
  constructor
  · intro b h
    simp [BatchAnalysisResult.success_rate, BatchAnalysisResult.total_leads, h]
  · intro r h
    simp [LeadAnalysisResult.transcription_success_rate, h]

/-- Witness for C10: the empty batch and the fresh lead result evaluate to
rate zero. -/
theorem rates_total_on_empty_witness :
    ({ batch_id := "batch" } : BatchAnalysisResult).success_rate = 0 ∧
    ({ lead_id := "1" } : LeadAnalysisResult).transcription_success_rate = 0 :=
  ⟨rates_total_on_empty.1 { batch_id := "batch" } rfl,
   rates_total_on_empty.2 { lead_id := "1" } rfl⟩

/-! ### Claim C8 -/

/-- Counterexample to C8 as stated: the response yes has no structured
decision section and contains neither of the literal tokens true and
false, yet the basic parser returns decision true, not the claimed
conservative false. -/
theorem parse_suitability_yes_counterexample :
    GeminiService.parse_suitability_response "yes" = true ∧
    pyContains (cleanedResponse "yes") "true" = false ∧
    pyContains (cleanedResponse "yes") "false" = false := by
  refine ⟨?_, ?_, ?_⟩ <;> decide

/-- Amended C8: the basic parser returns true exactly when the cleaned
text contains the token true without the token false, or is verbatim one
of the four affirmative words (yes, suitable, appropriate, correct); in
every other case, including both tokens present or neither, it returns
false.  The enhanced parser, whenever its structured line scan left the
decision unset, returns true exactly when the stripped lowered text
contains true without false, hence false on both-or-neither. -/
theorem parse_fallback_characterization :
    (∀ s : String, GeminiService.parse_suitability_response s = true ↔
      ((pyContains (cleanedResponse s) "true" = true ∧
        pyContains (cleanedResponse s) "false" = false) ∨
       cleanedResponse s ∈ yesWords)) ∧
    (∀ s : String,
      (EnhancedGeminiService.parse_scan s).is_suitable = none →
      ((EnhancedGeminiService.parse_enhanced_response s).1 = true ↔
        (pyContains (pyLower (pyStrip s)) "true" = true ∧
         pyContains (pyLower (pyStrip s)) "false" = false))) := by
  constructor
  · intro s
    unfold GeminiService.parse_suitability_response
    by_cases h1 : (pyContains (cleanedResponse s) "true" &&
        !pyContains (cleanedResponse s) "false") = true
    · rw [if_pos h1]
      simp only [Bool.and_eq_true, Bool.not_eq_true'] at h1
      simp [h1]
    · rw [if_neg h1]
      simp only [Bool.and_eq_true, Bool.not_eq_true', not_and] at h1
      by_cases h2 : (pyContains (cleanedResponse s) "false" &&
          !pyContains (cleanedResponse s) "true") = true
      · rw [if_pos h2]
        simp only [Bool.and_eq_true, Bool.not_eq_true'] at h2
        constructor
        · intro hfalse
          exact absurd hfalse (by simp)
        · intro hcase
          rcases hcase with ⟨ht, hf⟩ | hmem
          · exact absurd h2.1 (by simp [hf])
          · exfalso
            have hf : pyContains (cleanedResponse s) "false" = false := by
              simp only [yesWords, List.mem_cons, List.not_mem_nil, or_false]
                at hmem
              rcases hmem with h | h | h | h <;> rw [h] <;> decide
            rw [hf] at h2
            exact absurd h2.1 (by simp)
      · rw [if_neg h2]
        simp only [Bool.and_eq_true, Bool.not_eq_true', not_and] at h2
        by_cases h3 : cleanedResponse s ∈ yesWords
        · rw [if_pos h3]
          simp [h3]
        · rw [if_neg h3]
          by_cases h4 : cleanedResponse s ∈ noWords
          · rw [if_pos h4]
            constructor
            · intro hfalse
              exact absurd hfalse (by simp)
            · intro hcase
              rcases hcase with ⟨ht, hf⟩ | hmem
              · exact absurd (h1 ht) (by simp [hf])
              · exact absurd hmem h3
          · rw [if_neg h4]
            constructor
            · intro hfalse
              exact absurd hfalse (by simp)
            · intro hcase
              rcases hcase with ⟨ht, hf⟩ | hmem
              · exact absurd (h1 ht) (by simp [hf])
              · exact absurd hmem h3
  · intro s hnone
    unfold EnhancedGeminiService.parse_enhanced_response
    dsimp only
    rw [hnone]
    dsimp only
    by_cases h1 : (pyContains (pyLower (pyStrip s)) "true" &&
        !pyContains (pyLower (pyStrip s)) "false") = true
    · rw [if_pos h1]
      simp only [Bool.and_eq_true, Bool.not_eq_true'] at h1
      simp [h1]
    · rw [if_neg h1]
      simp only [Bool.and_eq_true, Bool.not_eq_true', not_and] at h1
      by_cases h2 : (pyContains (pyLower (pyStrip s)) "false" &&
          !pyContains (pyLower (pyStrip s)) "true") = true
      · rw [if_pos h2]
        simp only [Bool.and_eq_true, Bool.not_eq_true'] at h2
        constructor
        · intro hfalse
          exact absurd hfalse (by simp)
        · intro ⟨ht, hf⟩
          exact absurd h2.1 (by simp [hf])
      · rw [if_neg h2]
        constructor
        · intro hfalse
          exact absurd hfalse (by simp)
        · intro ⟨ht, hf⟩
          exact absurd (h1 ht) (by simp [hf])

/-- Witness for amended C8: a text holding true without false parses to
true, and a text with no structured section and neither token parses to
false in the enhanced parser. -/
theorem parse_fallback_characterization_witness :
    GeminiService.parse_suitability_response "it is true" = true ∧
    (EnhancedGeminiService.parse_enhanced_response "hello").1 ≠ true := by
  constructor
  · exact (parse_fallback_characterization.1 "it is true").mpr
      (Or.inl ⟨by decide, by decide⟩)
  · intro hp
    have h := (parse_fallback_characterization.2 "hello" (by decide)).mp hp
    exact absurd h.1 (by decide)

/-! ### Claim C7 -/

/-- Counterexample to C7 as stated: code 158 is one of the five recognized
codes and the transcript is not blank, yet the enhanced classifier
fail-fasts with an error verdict and no API call, because its own validity
table holds only the four AI codes. -/
theorem classifier_failfast_counterexample :
    pyStrip "salom" ≠ "" ∧ (158 : Int) ∈ configJunkStatuses ∧
    (EnhancedGeminiService.analyze_lead_status "salom" 158 (some "true")).2 =
      false ∧
    (EnhancedGeminiService.analyze_lead_status "salom" 158
      (some "true")).1.error = some "Unknown junk status: 158" := by
  refine ⟨by decide, by decide, by decide, by decide⟩

/-- Amended C7: each classifier fail-fasts (skips the API call and returns
an error verdict) exactly when the transcript strips to empty or the code
is outside its own validity table: the five recognized codes for the basic
classifier, but only the four AI codes (158 excluded) for the enhanced
classifier; on all other inputs the API is reached. -/
theorem classifier_failfast_characterization :
    ∀ (tr : String) (code : Int) (api : Option String),
      ((GeminiService.analyze_lead_status tr code api).2 = false ↔
        (pyStrip tr = "" ∨ code ∉ configJunkStatuses)) ∧
      ((pyStrip tr = "" ∨ code ∉ configJunkStatuses) →
        (GeminiService.analyze_lead_status tr code api).1.error ≠ none) ∧
      ((EnhancedGeminiService.analyze_lead_status tr code api).2 = false ↔
        (pyStrip tr = "" ∨ code ∉ validAIStatuses)) ∧
      ((pyStrip tr = "" ∨ code ∉ validAIStatuses) →
        (EnhancedGeminiService.analyze_lead_status tr code api).1.error ≠
          none) := by
  intro tr code api
  unfold GeminiService.analyze_lead_status
    EnhancedGeminiService.analyze_lead_status
  by_cases h1 : pyStrip tr = ""
  · simp [h1]
  · rw [if_neg h1, if_neg h1]
    by_cases h2 : code ∈ configJunkStatuses
    · rw [if_neg (by simpa using h2)]
      by_cases h3 : code ∈ validAIStatuses
      · rw [if_neg (by simpa using h3)]
        cases api <;> simp [h1, h2, h3]
      · rw [if_pos (by simpa using h3)]
        cases api <;> simp [h1, h2, h3]
    · rw [if_pos (by simpa using h2)]
      have h3 : code ∉ validAIStatuses := by
        intro hmem
        apply h2
        simp only [validAIStatuses, List.mem_cons, List.not_mem_nil, or_false]
          at hmem
        rcases hmem with rfl | rfl | rfl | rfl <;> decide
      rw [if_pos (by simpa using h3)]
      simp [h1, h2, h3]

/-- Witness for amended C7: a blank transcript fail-fasts on the basic
classifier, and a valid enhanced input reaches the API. -/
theorem classifier_failfast_characterization_witness :
    (GeminiService.analyze_lead_status "" 227 none).2 = false ∧
    (GeminiService.analyze_lead_status "" 227 none).1.error ≠ none ∧
    (EnhancedGeminiService.analyze_lead_status "salom" 227
      (some "true")).2 = true := by
  refine ⟨?_, ?_, ?_⟩
  · exact (classifier_failfast_characterization "" 227 none).1.mpr
      (Or.inl (by decide))
  · exact (classifier_failfast_characterization "" 227 none).2.1
      (Or.inl (by decide))
  · have h := (classifier_failfast_characterization "salom" 227
      (some "true")).2.2.1
    by_contra hne
    have : (EnhancedGeminiService.analyze_lead_status "salom" 227
        (some "true")).2 = false := by
      cases hval : (EnhancedGeminiService.analyze_lead_status "salom" 227
          (some "true")).2
      · rfl
      · exact absurd hval hne
    rcases h.mp this with hblank | hmem
    · exact absurd hblank (by decide)
    · exact hmem (by decide)

/-! ### Claim C9 -/

/-- Counterexample to C9 as stated: evaluating code 227, a response whose
alternative line names 227 itself yields a verdict whose alternative
status is present and equal to the code under evaluation — the parser
never compares the extracted code against the current one. -/
theorem alternative_status_counterexample :
    (EnhancedGeminiService.analyze_lead_status "salom" 227
      (some "QAROR: true\nALTERNATIVE_STATUS: 227")).1.is_suitable = true ∧
    (EnhancedGeminiService.analyze_lead_status "salom" 227
      (some "QAROR: true\nALTERNATIVE_STATUS: 227")).1.alternative_status =
      some 227 := by
  refine ⟨by decide, by decide⟩

/-- Amended C9: whenever a verdict produced by the enhanced classifier
carries an alternative status, that status is one of the four AI codes and
hence one of the five recognized codes; it need not differ from the code
being evaluated. -/
theorem alternative_status_in_recognized_codes :
    ∀ (tr : String) (code : Int) (api : Option String) (k : Int),
      (EnhancedGeminiService.analyze_lead_status tr code
        api).1.alternative_status = some k →
      k ∈ validAIStatuses ∧ k ∈ configJunkStatuses := by
  intro tr code api k hk
  have hmem : k ∈ validAIStatuses := by
    unfold EnhancedGeminiService.analyze_lead_status at hk
    by_cases h1 : pyStrip tr = ""
    · rw [if_pos h1] at hk
      simp at hk
    · rw [if_neg h1] at hk
      by_cases h2 : code ∉ validAIStatuses
      · rw [if_pos h2] at hk
        simp at hk
      · rw [if_neg h2] at hk
        cases api with
        | none => simp at hk
        | some text =>
          have hscan : (EnhancedGeminiService.parse_scan
              (pyStrip text)).alternative_status = some k := by
            unfold EnhancedGeminiService.parse_enhanced_response at hk
            dsimp only at hk
            exact hk
          exact parse_scan_alt_mem _ k hscan
  refine ⟨hmem, ?_⟩
  simp only [validAIStatuses, List.mem_cons, List.not_mem_nil, or_false]
    at hmem
  rcases hmem with rfl | rfl | rfl | rfl <;> decide

/-- Witness for amended C9: a concrete verdict carrying alternative 783
lands in both code tables. -/
theorem alternative_status_in_recognized_codes_witness :
    (783 : Int) ∈ validAIStatuses ∧ (783 : Int) ∈ configJunkStatuses :=
  alternative_status_in_recognized_codes "salom" 229
    (some "QAROR: true\nALTERNATIVE_STATUS: 783") 783 (by decide)

/-! ### Claim C1 -/

/-- A lead whose junk code is 158 reaches the call-count rule. -/
theorem analyze_single_lead_dispatch_158 (env : AppEnv) (lead : Lead)
    (dry_run : Bool) (h158 : lead.junk_status = some 158) :
    LeadAnalyzerService.analyze_single_lead env lead dry_run =
      ((LeadAnalyzerService.analyze_unsuccessful_calls env lead
        { lead_id := lead.id, original_status := lead.status_id,
          original_junk_status := lead.junk_status } dry_run).1, none,
       (LeadAnalyzerService.analyze_unsuccessful_calls env lead
        { lead_id := lead.id, original_status := lead.status_id,
          original_junk_status := lead.junk_status } dry_run).2) := by
  have htarget : lead.has_target_junk_status = true := by
    simp [Lead.has_target_junk_status, h158, targetJunkStatuses]
  unfold LeadAnalyzerService.analyze_single_lead
  simp [htarget, h158]

/-- The count decision of the basic service: five or more unsuccessful
calls keep the status, fewer change it to the active status with the junk
reason cleared, provided the run is dry or the write-back succeeds. -/
theorem count_decision_spec (res : LeadAnalysisResult) (n : Nat)
    (dry_run update_ok : Bool) :
    (5 ≤ n →
      (LeadAnalyzerService.count_decision res n dry_run
        update_ok).1.action = some .keepStatus ∧
      (LeadAnalyzerService.count_decision res n dry_run
        update_ok).1.reason = some .sufficientCalls) ∧
    (n < 5 → dry_run = true ∨ update_ok = true →
      (LeadAnalyzerService.count_decision res n dry_run
        update_ok).1.action = some .changeStatus ∧
      (LeadAnalyzerService.count_decision res n dry_run
        update_ok).1.reason = some .insufficientCalls ∧
      (LeadAnalyzerService.count_decision res n dry_run
        update_ok).1.new_status = some activeStatusValue ∧
      (LeadAnalyzerService.count_decision res n dry_run
        update_ok).1.new_junk_status = none) := by
  unfold LeadAnalyzerService.count_decision
  dsimp only
  constructor
  · intro h5
    rw [if_pos h5]
    exact ⟨rfl, rfl⟩
  · intro hlt hdu
    rw [if_neg (by omega)]
    rcases hdu with hd | hu
    · subst hd
      exact ⟨rfl, rfl, rfl, rfl⟩
    · cases dry_run
      · rw [hu]
        exact ⟨rfl, rfl, rfl, rfl⟩
      · exact ⟨rfl, rfl, rfl, rfl⟩

/-- The count decision of the enhanced service behaves identically. -/
theorem enhanced_count_decision_spec (res : LeadAnalysisResult) (n : Nat)
    (dry_run update_ok : Bool) :
    (5 ≤ n →
      (EnhancedLeadAnalyzerService.count_decision res n dry_run
        update_ok).1.action = some .keepStatus ∧
      (EnhancedLeadAnalyzerService.count_decision res n dry_run
        update_ok).1.reason = some .sufficientCalls) ∧
    (n < 5 → dry_run = true ∨ update_ok = true →
      (EnhancedLeadAnalyzerService.count_decision res n dry_run
        update_ok).1.action = some .changeStatus ∧
      (EnhancedLeadAnalyzerService.count_decision res n dry_run
        update_ok).1.reason = some .insufficientCalls ∧
      (EnhancedLeadAnalyzerService.count_decision res n dry_run
        update_ok).1.new_status = some activeStatusValue ∧
      (EnhancedLeadAnalyzerService.count_decision res n dry_run
        update_ok).1.new_junk_status = none) := by
  unfold EnhancedLeadAnalyzerService.count_decision
  dsimp only
  constructor
  · intro h5
    rw [if_pos h5]
    exact ⟨rfl, rfl⟩
  · intro hlt hdu
    rw [if_neg (by omega)]
    rcases hdu with hd | hu
    · subst hd
      exact ⟨rfl, rfl, rfl, rfl⟩
    · cases dry_run
      · rw [hu]
        exact ⟨rfl, rfl, rfl, rfl⟩
      · exact ⟨rfl, rfl, rfl, rfl⟩

/-- Claim C1: under the count rule (junk code 158, both analyzer
variants), at least five unsuccessful calls keeps the status with reason
SufficientCalls, and fewer than five (in particular exactly four) changes
the status with reason InsufficientCalls to the active main status with
the junk reason cleared — stated for the decision as computed, i.e.
whenever the run is dry or the CRM write-back succeeds (a rejected write
overwrites the action afterwards; see the C4 theorems). -/
theorem count_rule_boundary :
    ∀ (env : AppEnv) (eenv : EnhancedEnv) (lead : Lead)
      (res : LeadAnalysisResult) (dry_run : Bool),
      lead.junk_status = some 158 →
      ((5 ≤ (env.activities.filter fun a => a.is_unsuccessful_call).length →
        (LeadAnalyzerService.analyze_single_lead env lead dry_run).1.action =
          some .keepStatus ∧
        (LeadAnalyzerService.analyze_single_lead env lead dry_run).1.reason =
          some .sufficientCalls) ∧
       ((env.activities.filter fun a => a.is_unsuccessful_call).length < 5 →
        dry_run = true ∨ env.update_ok = true →
        (LeadAnalyzerService.analyze_single_lead env lead dry_run).1.action =
          some .changeStatus ∧
        (LeadAnalyzerService.analyze_single_lead env lead dry_run).1.reason =
          some .insufficientCalls ∧
        (LeadAnalyzerService.analyze_single_lead env lead
          dry_run).1.new_status = some activeStatusValue ∧
        (LeadAnalyzerService.analyze_single_lead env lead
          dry_run).1.new_junk_status = none)) ∧
      ((5 ≤ (eenv.activities.filter fun a => a.is_unsuccessful_call).length →
        (EnhancedLeadAnalyzerService.analyze_unsuccessful_calls eenv res
          dry_run).1.action = some .keepStatus ∧
        (EnhancedLeadAnalyzerService.analyze_unsuccessful_calls eenv res
          dry_run).1.reason = some .sufficientCalls) ∧
       ((eenv.activities.filter fun a => a.is_unsuccessful_call).length < 5 →
        dry_run = true ∨ eenv.update_ok = true →
        (EnhancedLeadAnalyzerService.analyze_unsuccessful_calls eenv res
          dry_run).1.action = some .changeStatus ∧
        (EnhancedLeadAnalyzerService.analyze_unsuccessful_calls eenv res
          dry_run).1.reason = some .insufficientCalls ∧
        (EnhancedLeadAnalyzerService.analyze_unsuccessful_calls eenv res
          dry_run).1.new_status = some activeStatusValue ∧
        (EnhancedLeadAnalyzerService.analyze_unsuccessful_calls eenv res
          dry_run).1.new_junk_status = none)) := by
  intro env eenv lead res dry_run h158
  constructor
  · rw [analyze_single_lead_dispatch_158 env lead dry_run h158]
    unfold LeadAnalyzerService.analyze_unsuccessful_calls
    exact count_decision_spec _ _ _ _
  · unfold EnhancedLeadAnalyzerService.analyze_unsuccessful_calls
    exact enhanced_count_decision_spec _ _ _ _

/-- Witness for C1: five unsuccessful calls keep the status, four change
it to the active status, in both analyzer variants. -/
theorem count_rule_boundary_witness :
    (LeadAnalyzerService.analyze_single_lead envFiveCalls lead158
      true).1.action = some .keepStatus ∧
    (LeadAnalyzerService.analyze_single_lead envFourCalls lead158
      true).1.action = some .changeStatus ∧
    (LeadAnalyzerService.analyze_single_lead envFourCalls lead158
      true).1.new_status = some activeStatusValue ∧
    (EnhancedLeadAnalyzerService.analyze_unsuccessful_calls eenvFiveCalls
      resInit true).1.reason = some .sufficientCalls ∧
    (EnhancedLeadAnalyzerService.analyze_unsuccessful_calls eenvFourCalls
      resInit true).1.reason = some .insufficientCalls := by
  refine ⟨?_, ?_, ?_, ?_, ?_⟩
  · exact ((count_rule_boundary envFiveCalls eenvFiveCalls lead158 resInit
      true rfl).1.1 (by decide)).1
  · exact ((count_rule_boundary envFourCalls eenvFourCalls lead158 resInit
      true rfl).1.2 (by decide) (Or.inl rfl)).1
  · exact ((count_rule_boundary envFourCalls eenvFourCalls lead158 resInit
      true rfl).1.2 (by decide) (Or.inl rfl)).2.2.1
  · exact ((count_rule_boundary envFiveCalls eenvFiveCalls lead158 resInit
      true rfl).2.1 (by decide)).2
  · exact ((count_rule_boundary envFourCalls eenvFourCalls lead158 resInit
      true rfl).2.2 (by decide) (Or.inl rfl)).2.1

/-! ### Claim C3 -/

/-- Whenever the verdict tail runs, the classifier was invoked with the
combined text, whatever the verdict or the run mode. -/
theorem ai_decision_called (res : LeadAnalysisResult) (ai : AIAnalysisResult)
    (combined : String) (dry_run update_ok : Bool) :
    (LeadAnalyzerService.ai_decision res ai combined dry_run
      update_ok).2.1 = some combined := by
  unfold LeadAnalyzerService.ai_decision
  dsimp only
  repeat' split
  all_goals rfl

/-- A lead whose junk code is an AI-rule code reaches the AI rule. -/
theorem analyze_single_lead_dispatch_ai (env : AppEnv) (lead : Lead)
    (dry_run : Bool) (k : Int) (hk : lead.junk_status = some k)
    (hkmem : k ∈ validAIStatuses) :
    LeadAnalyzerService.analyze_single_lead env lead dry_run =
      LeadAnalyzerService.analyze_with_ai env k
        { lead_id := lead.id, original_status := lead.status_id,
          original_junk_status := lead.junk_status } dry_run := by
  have hk158 : k ≠ 158 := by
    simp only [validAIStatuses, List.mem_cons, List.not_mem_nil, or_false]
      at hkmem
    rcases hkmem with rfl | rfl | rfl | rfl <;> decide
  have htarget : lead.has_target_junk_status = true := by
    simp only [validAIStatuses, List.mem_cons, List.not_mem_nil, or_false]
      at hkmem
    rcases hkmem with rfl | rfl | rfl | rfl <;>
      simp [Lead.has_target_junk_status, hk, targetJunkStatuses]
  unfold LeadAnalyzerService.analyze_single_lead
  rw [htarget]
  simp [hk, hk158]

/-- Claim C3: under the AI rule, no recording references means
Skip/NoAudioFiles with no classifier call; recordings whose every
transcription fails mean Skip/NoTranscription with no classifier call;
and at least one successful transcription always reaches the classifier
with exactly the double-newline join of the successful transcripts, in
evidence order. -/
theorem ai_rule_skip_and_classify :
    ∀ (env : AppEnv) (lead : Lead) (dry_run : Bool) (k : Int),
      lead.junk_status = some k → k ∈ validAIStatuses →
      ((env.audio_files = [] →
        (LeadAnalyzerService.analyze_single_lead env lead dry_run).1.action =
          some .skip ∧
        (LeadAnalyzerService.analyze_single_lead env lead dry_run).1.reason =
          some .noAudioFiles ∧
        (LeadAnalyzerService.analyze_single_lead env lead dry_run).2.1 =
          none) ∧
       (env.audio_files ≠ [] →
        (∀ f ∈ env.audio_files, (env.transcribe f).is_successful = false) →
        (LeadAnalyzerService.analyze_single_lead env lead dry_run).1.action =
          some .skip ∧
        (LeadAnalyzerService.analyze_single_lead env lead dry_run).1.reason =
          some .noTranscription ∧
        (LeadAnalyzerService.analyze_single_lead env lead dry_run).2.1 =
          none) ∧
       ((∃ f ∈ env.audio_files, (env.transcribe f).is_successful = true) →
        (LeadAnalyzerService.analyze_single_lead env lead dry_run).2.1 =
          some (pyJoin "\n\n"
            (((env.audio_files.map env.transcribe).filter
              fun t => t.is_successful).map fun t => t.transcription)))) := by
  intro env lead dry_run k hk hkmem
  rw [analyze_single_lead_dispatch_ai env lead dry_run k hk hkmem]
  unfold LeadAnalyzerService.analyze_with_ai
  refine ⟨?_, ?_, ?_⟩
  · intro hempty
    rw [if_pos hempty]
    exact ⟨rfl, rfl, rfl⟩
  · intro hne hallfail
    rw [if_neg hne]
    dsimp only
    have hfil : (env.audio_files.map env.transcribe).filter
        (fun t => t.is_successful) = [] := by
      rw [List.filter_eq_nil_iff]
      intro t ht
      rcases List.mem_map.mp ht with ⟨f, hf, rfl⟩
      simp [hallfail f hf]
    rw [if_pos hfil]
    exact ⟨rfl, rfl, rfl⟩
  · intro ⟨f, hf, hsucc⟩
    have hne : env.audio_files ≠ [] := by
      intro h0
      rw [h0] at hf
      exact absurd hf (List.not_mem_nil f)
    rw [if_neg hne]
    dsimp only
    have hfil : (env.audio_files.map env.transcribe).filter
        (fun t => t.is_successful) ≠ [] := by
      intro h0
      have := List.filter_eq_nil_iff.mp h0 (env.transcribe f)
        (List.mem_map.mpr ⟨f, hf, rfl⟩)
      simp [hsucc] at this
    rw [if_neg hfil]
    simp only [LeadAnalysisResult.total_transcription_text, List.nil_append]
    exact ai_decision_called _ _ _ _ _

/-- Witness for C3: no recordings skip for lack of audio, all-failing
transcriptions skip for lack of transcripts, and one good transcript out
of two reaches the classifier with exactly that transcript. -/
theorem ai_rule_skip_and_classify_witness :
    (LeadAnalyzerService.analyze_single_lead envNoAudio lead229
      true).1.reason = some .noAudioFiles ∧
    (LeadAnalyzerService.analyze_single_lead envAllFail lead229
      true).1.reason = some .noTranscription ∧
    (LeadAnalyzerService.analyze_single_lead envAudio lead229 true).2.1 =
      some "salom" := by
  refine ⟨?_, ?_, ?_⟩
  · exact ((ai_rule_skip_and_classify envNoAudio lead229 true 229 rfl
      (by decide)).1 rfl).2.1
  · exact ((ai_rule_skip_and_classify envAllFail lead229 true 229 rfl
      (by decide)).2.1 (by decide) (by decide)).2.1
  · have h := (ai_rule_skip_and_classify envAudio lead229 true 229 rfl
      (by decide)).2.2 ⟨"http://rec/1", by decide, by decide⟩
    rw [h]
    decide

/-! ### Claim C4 -/

/-- Counterexample to C4 as stated: three unsuccessful calls, a non-dry
run, and a CRM that rejects the write: the returned result carries the
write-failure error text, but its action is Error, not the computed
ChangeStatus the claim says is preserved unchanged. -/
theorem write_failure_counterexample :
    (LeadAnalyzerService.analyze_single_lead envThreeCallsNoWrite lead158
      false).1.error_message = some "Failed to update lead status" ∧
    (LeadAnalyzerService.analyze_single_lead envThreeCallsNoWrite lead158
      false).1.action ≠ some .changeStatus ∧
    (LeadAnalyzerService.analyze_single_lead envThreeCallsNoWrite lead158
      false).1.action = some .error := by
  refine ⟨by decide, by decide, by decide⟩

/-- Amended C4: when the CRM write-back fails on a computed ChangeStatus,
the result carries the error text, but set_error overwrites the action
with Error and the reason with ApiError — only the computed new-status and
new-junk-reason target fields survive unchanged. -/
theorem write_failure_error_overwrite :
    (∀ (r : LeadAnalysisResult) (msg : String),
      (r.set_error msg).error_message = some msg ∧
      (r.set_error msg).action = some .error ∧
      (r.set_error msg).reason = some .apiError ∧
      (r.set_error msg).new_status = r.new_status ∧
      (r.set_error msg).new_junk_status = r.new_junk_status) ∧
    (∀ (env : AppEnv) (lead : Lead),
      (env.activities.filter fun a => a.is_unsuccessful_call).length < 5 →
      env.update_ok = false →
      lead.junk_status = some 158 →
      (LeadAnalyzerService.analyze_single_lead env lead
        false).1.error_message = some "Failed to update lead status" ∧
      (LeadAnalyzerService.analyze_single_lead env lead false).1.action =
        some .error ∧
      (LeadAnalyzerService.analyze_single_lead env lead false).1.reason =
        some .apiError ∧
      (LeadAnalyzerService.analyze_single_lead env lead
        false).1.new_status = some activeStatusValue ∧
      (LeadAnalyzerService.analyze_single_lead env lead
        false).1.new_junk_status = none) := by
  constructor
  · intro r msg
    exact ⟨rfl, rfl, rfl, rfl, rfl⟩
  · intro env lead hlt hupd h158
    rw [analyze_single_lead_dispatch_158 env lead false h158]
    unfold LeadAnalyzerService.analyze_unsuccessful_calls
      LeadAnalyzerService.count_decision
    dsimp only
    have hlt2 : Lead.unsuccessful_calls_count
        { lead with activities := env.activities } < 5 := hlt
    rw [if_neg (by omega)]
    rw [hupd]
    exact ⟨rfl, rfl, rfl, rfl, rfl⟩

/-- Witness for amended C4: set_error on a fresh result, and the full
count-rule run against a rejecting CRM. -/
theorem write_failure_error_overwrite_witness :
    (resInit.set_error "boom").action = some .error ∧
    (resInit.set_error "boom").new_status = resInit.new_status ∧
    (LeadAnalyzerService.analyze_single_lead envThreeCallsNoWrite lead158
      false).1.new_status = some activeStatusValue := by
  refine ⟨?_, ?_, ?_⟩
  · exact (write_failure_error_overwrite.1 resInit "boom").2.1
  · exact (write_failure_error_overwrite.1 resInit "boom").2.2.2.1
  · exact (write_failure_error_overwrite.2 envThreeCallsNoWrite lead158
      (by decide) rfl rfl).2.2.2.1

/-! ### Claim C5 -/

/-- Counterexample to C5 as stated: with a CRM that rejects the write, the
dry-run result and the non-dry-run result on the same inputs differ — the
dry run reports the computed ChangeStatus, the wet run reports Error. -/
theorem dry_run_counterexample :
    (LeadAnalyzerService.analyze_single_lead envThreeCallsNoWrite lead158
      true).1.action = some .changeStatus ∧
    (LeadAnalyzerService.analyze_single_lead envThreeCallsNoWrite lead158
      false).1.action = some .error := by
  refine ⟨by decide, by decide⟩

/-- The count decision in dry-run mode never writes and equals the
non-dry-run decision whose write succeeds. -/
theorem count_decision_dry_eq (res : LeadAnalysisResult) (n : Nat)
    (u : Bool) :
    (LeadAnalyzerService.count_decision res n true u).2 = false ∧
    (LeadAnalyzerService.count_decision res n true u).1 =
      (LeadAnalyzerService.count_decision res n false true).1 := by
  unfold LeadAnalyzerService.count_decision
  dsimp only
  by_cases h5 : 5 ≤ n
  · rw [if_pos h5, if_pos h5]
    exact ⟨rfl, rfl⟩
  · rw [if_neg h5, if_neg h5]
    exact ⟨rfl, rfl⟩

/-- The verdict tail in dry-run mode never writes and equals the
non-dry-run tail whose write succeeds. -/
theorem ai_decision_dry_eq (res : LeadAnalysisResult)
    (ai : AIAnalysisResult) (combined : String) (u : Bool) :
    (LeadAnalyzerService.ai_decision res ai combined true u).2.2 = false ∧
    (LeadAnalyzerService.ai_decision res ai combined true u).1 =
      (LeadAnalyzerService.ai_decision res ai combined false true).1 := by
  unfold LeadAnalyzerService.ai_decision
  dsimp only
  by_cases h1 : (!ai.is_successful) = true
  · rw [if_pos h1, if_pos h1]
    exact ⟨rfl, rfl⟩
  · rw [if_neg h1, if_neg h1]
    by_cases h2 : ai.is_suitable = true
    · rw [if_pos h2, if_pos h2]
      exact ⟨rfl, rfl⟩
    · rw [if_neg h2, if_neg h2]
      exact ⟨rfl, rfl⟩

/-- The enhanced verdict tail in dry-run mode never writes and equals the
non-dry-run tail whose write succeeds. -/
theorem enhanced_ai_decision_dry_eq (res : LeadAnalysisResult)
    (ai : AIAnalysisResult) (combined : String) (u : Bool) :
    (EnhancedLeadAnalyzerService.ai_decision res ai combined true
      u).2.2 = false ∧
    (EnhancedLeadAnalyzerService.ai_decision res ai combined true u).1 =
      (EnhancedLeadAnalyzerService.ai_decision res ai combined false
        true).1 := by
  unfold EnhancedLeadAnalyzerService.ai_decision
  dsimp only
  by_cases h1 : (!ai.is_successful) = true
  · rw [if_pos h1, if_pos h1]
    exact ⟨rfl, rfl⟩
  · rw [if_neg h1, if_neg h1]
    by_cases h2 : ai.is_suitable = true
    · rw [if_pos h2, if_pos h2]
      exact ⟨rfl, rfl⟩
    · rw [if_neg h2, if_neg h2]
      exact ⟨rfl, rfl⟩

/-- The AI rule of the basic service in dry-run mode never writes and
equals the non-dry-run run whose write succeeds. -/
theorem analyze_with_ai_dry_eq (env : AppEnv) (code : Int)
    (res : LeadAnalysisResult) (u : Bool) :
    (LeadAnalyzerService.analyze_with_ai { env with update_ok := u } code
      res true).2.2 = false ∧
    (LeadAnalyzerService.analyze_with_ai { env with update_ok := u } code
      res true).1 =
      (LeadAnalyzerService.analyze_with_ai { env with update_ok := true }
        code res false).1 := by
  unfold LeadAnalyzerService.analyze_with_ai
  dsimp only
  by_cases hA : env.audio_files = []
  · rw [if_pos hA, if_pos hA]
    exact ⟨rfl, rfl⟩
  · rw [if_neg hA, if_neg hA]
    by_cases hF : (env.audio_files.map env.transcribe).filter
        (fun t => t.is_successful) = []
    · rw [if_pos hF, if_pos hF]
      exact ⟨rfl, rfl⟩
    · rw [if_neg hF, if_neg hF]
      exact ⟨(ai_decision_dry_eq _ _ _ u).1, (ai_decision_dry_eq _ _ _ u).2⟩

/-- Amended C5: a dry run never invokes the CRM update, and its returned
result is identical (all fields, hence action, reason, new-status and
new-junk-reason) to a non-dry-run execution on the same inputs in which
the CRM write succeeds; when the non-dry-run write fails the results
differ, as the counterexample records.  Stated for the full basic-service
analysis and for the enhanced AI rule. -/
theorem dry_run_never_updates :
    (∀ (env : AppEnv) (lead : Lead) (u : Bool),
      (LeadAnalyzerService.analyze_single_lead { env with update_ok := u }
        lead true).2.2 = false ∧
      (LeadAnalyzerService.analyze_single_lead { env with update_ok := u }
        lead true).1 =
        (LeadAnalyzerService.analyze_single_lead
          { env with update_ok := true } lead false).1) ∧
    (∀ (eenv : EnhancedEnv) (code : Int) (res : LeadAnalysisResult)
      (u : Bool),
      (EnhancedLeadAnalyzerService.analyze_with_ai_transcription
        { eenv with update_ok := u } code res true).2.2 = false ∧
      (EnhancedLeadAnalyzerService.analyze_with_ai_transcription
        { eenv with update_ok := u } code res true).1 =
        (EnhancedLeadAnalyzerService.analyze_with_ai_transcription
          { eenv with update_ok := true } code res false).1) := by
  constructor
  · intro env lead u
    unfold LeadAnalyzerService.analyze_single_lead
    dsimp only
    cases hT : lead.has_target_junk_status with
    | false =>
      exact ⟨rfl, rfl⟩
    | true =>
      by_cases h158 : lead.junk_status = some 158
      · rw [if_pos h158, if_pos h158]
        unfold LeadAnalyzerService.analyze_unsuccessful_calls
        dsimp only
        exact ⟨(count_decision_dry_eq _ _ u).1,
          (count_decision_dry_eq _ _ u).2⟩
      · rw [if_neg h158, if_neg h158]
        exact ⟨(analyze_with_ai_dry_eq env _ _ u).1,
          (analyze_with_ai_dry_eq env _ _ u).2⟩
  · intro eenv code res u
    unfold EnhancedLeadAnalyzerService.analyze_with_ai_transcription
    dsimp only
    by_cases hA : voxAudioFiles eenv.vox_calls = []
    · rw [if_pos hA, if_pos hA]
      exact ⟨rfl, rfl⟩
    · rw [if_neg hA, if_neg hA]
      by_cases hF : ((voxAudioFiles eenv.vox_calls).map
          eenv.transcribe).filter (fun t => t.is_successful) = []
      · rw [if_pos hF, if_pos hF]
        exact ⟨rfl, rfl⟩
      · rw [if_neg hF, if_neg hF]
        exact ⟨(enhanced_ai_decision_dry_eq _ _ _ u).1,
          (enhanced_ai_decision_dry_eq _ _ _ u).2⟩

/-! ### Claim C2 -/

/-- Claim C2 (code bug): with a classifier verdict decision=true carrying
alternative reason 227, the enhanced decision engine does NOT produce the
specified ChangeStatus/AINotSuitable keeping the junk status — reading the
undeclared has_alternative_status attribute raises AttributeError and the
handler turns the analysis into action=Error with reason=ApiError, no
write issued.  The decision=false half behaves as specified: the lead is
reclassified to the active main status with the junk reason cleared, the
alternative token ignored. -/
theorem enhanced_alternative_branch_eval :
    ((EnhancedLeadAnalyzerService.analyze_with_ai_transcription eenvAltTrue
        229 resInit false).1.action = some .error ∧
     (EnhancedLeadAnalyzerService.analyze_with_ai_transcription eenvAltTrue
        229 resInit false).1.reason = some .apiError ∧
     ((EnhancedLeadAnalyzerService.analyze_with_ai_transcription eenvAltTrue
        229 resInit false).1.ai_analysis.map fun a => a.is_suitable) =
       some true ∧
     ((EnhancedLeadAnalyzerService.analyze_with_ai_transcription eenvAltTrue
        229 resInit false).1.ai_analysis.bind fun a =>
          a.alternative_status) = some 227 ∧
     (EnhancedLeadAnalyzerService.analyze_with_ai_transcription eenvAltTrue
        229 resInit false).2.2 = false) ∧
    ((EnhancedLeadAnalyzerService.analyze_with_ai_transcription eenvAltFalse
        229 resInit true).1.action = some .changeStatus ∧
     (EnhancedLeadAnalyzerService.analyze_with_ai_transcription eenvAltFalse
        229 resInit true).1.reason = some .aiNotSuitable ∧
     (EnhancedLeadAnalyzerService.analyze_with_ai_transcription eenvAltFalse
        229 resInit true).1.new_status = some activeStatusValue ∧
     (EnhancedLeadAnalyzerService.analyze_with_ai_transcription eenvAltFalse
        229 resInit true).1.new_junk_status = none) := by
  refine ⟨⟨by decide, by decide, by decide, by decide, by decide⟩,
    by decide, by decide, by decide, by decide⟩

/-! ### Claim C6 -/

/-- A cache hit returns the stored row as a dict, with the database and
the network untouched. -/
theorem analyze_audio_hit (sha : String → String)
    (net : String → Except String (List SpeakerPart))
    (db : List DbTranscription) (lead_id audio_url language : String)
    (t : DbTranscription)
    (hhit : CachedTranscriptionService.get_cached_transcription sha db
      audio_url = some t) :
    CachedTranscriptionService.analyze_audio_with_cache sha net db lead_id
      audio_url language =
      ({ transcription := t.transcription_text, language := t.language,
         is_successful := t.is_successful, error := t.error_message,
         from_cache := true }, db, false) := by
  unfold CachedTranscriptionService.analyze_audio_with_cache
  rw [hhit]

/-- A cache miss stores exactly one row and touches the network once; a
failed network outcome is stored with success false. -/
theorem analyze_audio_miss (sha : String → String)
    (net : String → Except String (List SpeakerPart))
    (db : List DbTranscription) (lead_id audio_url language : String)
    (hmiss : CachedTranscriptionService.get_cached_transcription sha db
      audio_url = none) :
    ∃ d : CacheData,
      CachedTranscriptionService.analyze_audio_with_cache sha net db
        lead_id audio_url language =
        (d, CachedTranscriptionService.save_transcription_to_cache sha db
          lead_id audio_url d, true) ∧
      (∀ e, net audio_url = .error e → d.is_successful = false) := by
  unfold CachedTranscriptionService.analyze_audio_with_cache
  rw [hmiss]
  cases hnet : net audio_url with
  | ok parts =>
    refine ⟨_, rfl, ?_⟩
    intro e he
    exact absurd he (by simp)
  | error e0 =>
    refine ⟨_, rfl, ?_⟩
    intro e _
    rfl

/-- After saving under a previously missing key, the lookup finds exactly
the saved row. -/
theorem get_cached_after_save (sha : String → String)
    (db : List DbTranscription) (lead_id audio_url : String)
    (d : CacheData)
    (hmiss : CachedTranscriptionService.get_cached_transcription sha db
      audio_url = none) :
    CachedTranscriptionService.get_cached_transcription sha
      (CachedTranscriptionService.save_transcription_to_cache sha db
        lead_id audio_url d) audio_url =
      some { lead_id := lead_id, audio_url := audio_url,
             audio_hash := sha audio_url,
             transcription_text := d.transcription, language := d.language,
             is_successful := d.is_successful, error_message := d.error } := by
  unfold CachedTranscriptionService.get_cached_transcription
    CachedTranscriptionService.save_transcription_to_cache
    CachedTranscriptionService.get_audio_hash at *
  rw [find?_append_of_none _ _ _ hmiss]
  simp [List.find?]

/-- Claim C6: resolving the same recording reference twice from an initial
miss touches the network exactly once: the first call stores one cache row
keyed by the hash of the reference (a failed attempt is stored too, with
success false), and the second call returns the cached outcome with the
success flag preserved, without any network call and without growing the
database. -/
theorem transcript_cache_idempotent :
    ∀ (sha : String → String)
      (net : String → Except String (List SpeakerPart))
      (db : List DbTranscription) (lead_id audio_url language : String),
      CachedTranscriptionService.get_cached_transcription sha db
        audio_url = none →
      (CachedTranscriptionService.analyze_audio_with_cache sha net db
        lead_id audio_url language).2.2 = true ∧
      (CachedTranscriptionService.analyze_audio_with_cache sha net
        (CachedTranscriptionService.analyze_audio_with_cache sha net db
          lead_id audio_url language).2.1 lead_id audio_url
        language).2.2 = false ∧
      (CachedTranscriptionService.analyze_audio_with_cache sha net
        (CachedTranscriptionService.analyze_audio_with_cache sha net db
          lead_id audio_url language).2.1 lead_id audio_url
        language).2.1 =
        (CachedTranscriptionService.analyze_audio_with_cache sha net db
          lead_id audio_url language).2.1 ∧
      (CachedTranscriptionService.analyze_audio_with_cache sha net
        (CachedTranscriptionService.analyze_audio_with_cache sha net db
          lead_id audio_url language).2.1 lead_id audio_url
        language).1.is_successful =
        (CachedTranscriptionService.analyze_audio_with_cache sha net db
          lead_id audio_url language).1.is_successful ∧
      (∃ t, CachedTranscriptionService.get_cached_transcription sha
          (CachedTranscriptionService.analyze_audio_with_cache sha net db
            lead_id audio_url language).2.1 audio_url = some t ∧
        t.audio_hash = sha audio_url ∧
        t.is_successful =
          (CachedTranscriptionService.analyze_audio_with_cache sha net db
            lead_id audio_url language).1.is_successful) ∧
      (∀ e, net audio_url = .error e →
        (CachedTranscriptionService.analyze_audio_with_cache sha net db
          lead_id audio_url language).1.is_successful = false) := by
  intro sha net db lead_id audio_url language hmiss
  obtain ⟨d, hd, herr⟩ :=
    analyze_audio_miss sha net db lead_id audio_url language hmiss
  have hrow := get_cached_after_save sha db lead_id audio_url d hmiss
  have hsecond := analyze_audio_hit sha net
    (CachedTranscriptionService.save_transcription_to_cache sha db lead_id
      audio_url d) lead_id audio_url language _ hrow
  refine ⟨?_, ?_, ?_, ?_, ?_, ?_⟩
  · rw [hd]
  · rw [hd]
    dsimp only
    rw [hsecond]
  · rw [hd]
    dsimp only
    rw [hsecond]
  · rw [hd]
    dsimp only
    rw [hsecond]
  · rw [hd]
    dsimp only
    exact ⟨_, hrow, rfl, rfl⟩
  · intro e he
    rw [hd]
    exact herr e he

/-- Witness for C6: resolving one URL twice against an empty cache with a
succeeding network. -/
theorem transcript_cache_idempotent_witness :
    (CachedTranscriptionService.analyze_audio_with_cache sampleSha
      sampleNetOk [] "L1" "http://rec/1" "uz").2.2 = true ∧
    (CachedTranscriptionService.analyze_audio_with_cache sampleSha
      sampleNetOk
      (CachedTranscriptionService.analyze_audio_with_cache sampleSha
        sampleNetOk [] "L1" "http://rec/1" "uz").2.1 "L1" "http://rec/1"
      "uz").2.2 = false ∧
    (CachedTranscriptionService.analyze_audio_with_cache sampleSha
      sampleNetOk
      (CachedTranscriptionService.analyze_audio_with_cache sampleSha
        sampleNetOk [] "L1" "http://rec/1" "uz").2.1 "L1" "http://rec/1"
      "uz").1.is_successful =
      (CachedTranscriptionService.analyze_audio_with_cache sampleSha
        sampleNetOk [] "L1" "http://rec/1" "uz").1.is_successful := by
  have h := transcript_cache_idempotent sampleSha sampleNetOk [] "L1"
    "http://rec/1" "uz" rfl
  exact ⟨h.1, h.2.1, h.2.2.2.1⟩

end BitrixLeadAnalyzer
